import Mathlib

/-
Verification of the bootstrap orchestrator in image_bootstrap/engine.py.

The pipeline `BootstrapEngine.run` (engine.py lines 777-840) is embedded as a
composition of small combinators over traces of step identifiers: `pstep`
models one pipeline step (one method call that may raise), `seqR` models
sequential composition with Python exception short-circuiting, and `tryFin`
models a Python `try:/finally:` block, where an exception raised by the
`finally` body replaces the in-flight exception.  A fault model
`f : StepId -> Bool` says which steps raise when executed.
-/

namespace ImageBootstrap

/-- The pipeline steps of `BootstrapEngine.run`, in source order. -/
inductive StepId where
  | unshare
  | partitionDevice
  | setDiskIdInMbr
  | kpartxMinusA
  | formatPartitions
  | setFirstPartitionUuid
  | gatherFirstPartitionUuid
  | mkdirMountpoint
  | mountDiskChrootMounts
  | mkdirMountpointEtc
  | createEtcHostname1
  | createEtcResolvConf1
  | runDirectoryBootstrap
  | unmountDirectoryBootstrapLeftovers
  | createEtcHostname2
  | createEtcResolvConf2
  | createEtcFstab
  | createNetworkConfiguration
  | runPreScripts
  | installBootloaderHost
  | mountNondiskChrootMounts
  | setRootPasswordInsideChroot
  | installBootloaderChroot
  | generateGrubCfg
  | fixGrubCfgRootDevice
  | generateInitramfs
  | copyChrootScripts
  | runChrootScripts
  | removeChrootScripts
  | unmountNondiskChrootMounts
  | performPostChrootCleanUp
  | runPostScripts
  | unmountDiskChrootMounts
  | rmdirMountpoint
  | kpartxMinusD
  deriving DecidableEq, Repr

/-- Bootloader approach tags (engine.py lines 19-24). -/
inductive Approach where
  | auto
  | chrootGrub2Device
  | chrootGrub2Drive
  | hostGrub2Device
  | hostGrub2Drive
  | noBootloader
  deriving DecidableEq, Repr

/-- The configuration bits of the engine that decide which steps of `run`
execute (engine.py lines 785, 807, 813, 816, 825). -/
structure RunCfg where
  uuidConfigured : Bool
  chrootScriptsConfigured : Bool
  approach : Approach

/-- Result of executing a piece of the pipeline: the ordered call trace of the
steps that were entered, and the step whose exception is propagating
(`none` when no exception is in flight). -/
abbrev RunRes := List StepId × Option StepId

/-- One pipeline step: it is entered (appears in the trace) and raises
exactly when the fault model says so. -/
def pstep (f : StepId → Bool) (s : StepId) : RunRes :=
  ([s], if f s then some s else none)

/-- Sequential composition with Python exception semantics: `b` runs only
when `a` did not raise. -/
def seqR (a b : RunRes) : RunRes :=
  if a.2 = none then (a.1 ++ b.1, b.2) else a

/-- Python `try: a finally: fin`: `fin` always runs; an exception raised by
`fin` replaces an in-flight exception from `a`. -/
def tryFin (a fin : RunRes) : RunRes :=
  (a.1 ++ fin.1, if fin.2 = none then a.2 else fin.2)

/-- The empty piece of pipeline. -/
def skipR : RunRes := ([], none)

/-- A piece of pipeline guarded by a configuration condition. -/
def condR (c : Prop) [Decidable c] (a : RunRes) : RunRes :=
  if c then a else skipR

/-- `BootstrapEngine.run` (engine.py lines 777-840), step for step, with the
source's nesting of `try:/finally:` scopes. -/
def engineRun (cfg : RunCfg) (f : StepId → Bool) : RunRes :=
  seqR (pstep f .unshare) <|
  seqR (pstep f .partitionDevice) <|
  seqR (pstep f .setDiskIdInMbr) <|
  seqR (pstep f .kpartxMinusA) <|
  tryFin
    (seqR (pstep f .formatPartitions) <|
     seqR (if cfg.uuidConfigured then pstep f .setFirstPartitionUuid
           else pstep f .gatherFirstPartitionUuid) <|
     seqR (pstep f .mkdirMountpoint) <|
     tryFin
       (seqR (pstep f .mountDiskChrootMounts) <|
        tryFin
          (seqR (pstep f .mkdirMountpointEtc) <|
           seqR (pstep f .createEtcHostname1) <|
           seqR (pstep f .createEtcResolvConf1) <|
           seqR (tryFin (pstep f .runDirectoryBootstrap)
                        (pstep f .unmountDirectoryBootstrapLeftovers)) <|
           seqR (pstep f .createEtcHostname2) <|
           seqR (pstep f .createEtcResolvConf2) <|
           seqR (pstep f .createEtcFstab) <|
           seqR (pstep f .createNetworkConfiguration) <|
           seqR (pstep f .runPreScripts) <|
           seqR (condR (cfg.approach = .hostGrub2Device ∨ cfg.approach = .hostGrub2Drive)
                       (pstep f .installBootloaderHost)) <|
           seqR
             (seqR (pstep f .mountNondiskChrootMounts)
               (tryFin
                 (seqR (pstep f .setRootPasswordInsideChroot) <|
                  seqR (condR (cfg.approach = .chrootGrub2Device ∨ cfg.approach = .chrootGrub2Drive)
                              (pstep f .installBootloaderChroot)) <|
                  seqR (condR (¬ cfg.approach = .noBootloader)
                              (seqR (pstep f .generateGrubCfg)
                                    (pstep f .fixGrubCfgRootDevice))) <|
                  seqR (pstep f .generateInitramfs) <|
                  condR (cfg.chrootScriptsConfigured = true)
                    (seqR (pstep f .copyChrootScripts)
                          (tryFin (pstep f .runChrootScripts)
                                  (pstep f .removeChrootScripts))))
                 (pstep f .unmountNondiskChrootMounts)))
             (seqR (pstep f .performPostChrootCleanUp)
                   (pstep f .runPostScripts)))
          (pstep f .unmountDiskChrootMounts))
       (pstep f .rmdirMountpoint))
    (pstep f .kpartxMinusD)

/-- The acquisition steps named by the resource-nesting invariant:
partition-device activation, mountpoint directory, partition mount,
non-disk chroot mounts, chroot-script copies. -/
def isAcquire : StepId → Bool
  | .kpartxMinusA => true
  | .mkdirMountpoint => true
  | .mountDiskChrootMounts => true
  | .mountNondiskChrootMounts => true
  | .copyChrootScripts => true
  | _ => false

/-- The release steps of the cleanup chain for the five acquired resources. -/
def isRelease : StepId → Bool
  | .kpartxMinusD => true
  | .rmdirMountpoint => true
  | .unmountDiskChrootMounts => true
  | .unmountNondiskChrootMounts => true
  | .removeChrootScripts => true
  | _ => false

/-- The release step that frees what a given acquisition step acquired. -/
def toRelease : StepId → StepId
  | .kpartxMinusA => .kpartxMinusD
  | .mkdirMountpoint => .rmdirMountpoint
  | .mountDiskChrootMounts => .unmountDiskChrootMounts
  | .mountNondiskChrootMounts => .unmountNondiskChrootMounts
  | .copyChrootScripts => .removeChrootScripts
  | s => s

/-- The steps that only ever run as cleanup (inside a `finally:`). -/
def isCleanup : StepId → Bool
  | .unmountDirectoryBootstrapLeftovers => true
  | .removeChrootScripts => true
  | .unmountNondiskChrootMounts => true
  | .unmountDiskChrootMounts => true
  | .rmdirMountpoint => true
  | .kpartxMinusD => true
  | _ => false

/-- An acquisition step that executed and did not raise under fault model
`f` really acquired its resource. -/
def acqOk (f : StepId → Bool) (s : StepId) : Bool :=
  isAcquire s && ! f s

/-- A pipeline piece is release-balanced under `f` when the release steps it
executes are exactly the releases of the resources it successfully
acquired, in reverse order of acquisition. -/
def Balanced (f : StepId → Bool) (r : RunRes) : Prop :=
  r.1.filter isRelease = ((r.1.filter (acqOk f)).map toRelease).reverse

/-- A pipeline piece that touches no acquisition and no release step. -/
def NeutralR (f : StepId → Bool) (r : RunRes) : Prop :=
  r.1.filter isRelease = [] ∧ r.1.filter (acqOk f) = []

theorem neutral_pstep (f : StepId → Bool) (s : StepId)
    (h1 : isRelease s = false) (h2 : isAcquire s = false) :
    NeutralR f (pstep f s) := by
  constructor <;> simp [pstep, acqOk, h1, h2]

theorem neutral_skip (f : StepId → Bool) : NeutralR f skipR := by
  constructor <;> simp [skipR]

theorem neutral_seq {f : StepId → Bool} {a b : RunRes}
    (ha : NeutralR f a) (hb : NeutralR f b) : NeutralR f (seqR a b) := by
  obtain ⟨ha1, ha2⟩ := ha
  obtain ⟨hb1, hb2⟩ := hb
  unfold seqR
  split
  · exact ⟨by simp [ha1, hb1], by simp [ha2, hb2]⟩
  · exact ⟨ha1, ha2⟩

theorem neutral_tryFin {f : StepId → Bool} {a b : RunRes}
    (ha : NeutralR f a) (hb : NeutralR f b) : NeutralR f (tryFin a b) := by
  obtain ⟨ha1, ha2⟩ := ha
  obtain ⟨hb1, hb2⟩ := hb
  exact ⟨by simp [tryFin, ha1, hb1], by simp [tryFin, ha2, hb2]⟩

theorem neutral_cond {f : StepId → Bool} {a : RunRes} (c : Prop) [Decidable c]
    (ha : NeutralR f a) : NeutralR f (condR c a) := by
  unfold condR
  split
  · exact ha
  · exact neutral_skip f

theorem neutral_ite {f : StepId → Bool} {a b : RunRes} (c : Prop) [Decidable c]
    (ha : NeutralR f a) (hb : NeutralR f b) : NeutralR f (if c then a else b) := by
  split
  · exact ha
  · exact hb

theorem balanced_of_neutral {f : StepId → Bool} {a : RunRes}
    (ha : NeutralR f a) : Balanced f a := by
  obtain ⟨ha1, ha2⟩ := ha
  simp [Balanced, ha1, ha2]

theorem balanced_neutral_seq {f : StepId → Bool} {a b : RunRes}
    (ha : NeutralR f a) (hb : Balanced f b) : Balanced f (seqR a b) := by
  obtain ⟨ha1, ha2⟩ := ha
  unfold seqR
  split
  · simpa [Balanced, ha1, ha2] using hb
  · exact balanced_of_neutral ⟨ha1, ha2⟩

theorem balanced_seq_neutral {f : StepId → Bool} {a b : RunRes}
    (ha : Balanced f a) (hb : NeutralR f b) : Balanced f (seqR a b) := by
  obtain ⟨hb1, hb2⟩ := hb
  unfold seqR
  split
  · simpa [Balanced, hb1, hb2] using ha
  · exact ha

theorem balanced_cond {f : StepId → Bool} {a : RunRes} (c : Prop) [Decidable c]
    (ha : Balanced f a) : Balanced f (condR c a) := by
  unfold condR
  split
  · exact ha
  · exact balanced_of_neutral (neutral_skip f)

/-- The key scope lemma: the source pattern `acquire(); try: body finally:
release()` is release-balanced as soon as the body is, because the release
runs exactly when the acquisition step did not raise, and it runs after
everything the body did. -/
theorem balanced_scope {f : StepId → Bool} {body : RunRes} {a r : StepId}
    (hToRel : toRelease a = r)
    (hrel : isRelease a = false) (hacq : isAcquire a = true)
    (hracq : isAcquire r = false) (hrrel : isRelease r = true)
    (hbody : Balanced f body) :
    Balanced f (seqR (pstep f a) (tryFin body (pstep f r))) := by
  unfold Balanced at hbody ⊢
  by_cases hf : f a
  · simp [seqR, pstep, tryFin, hf, acqOk, hrel, hacq]
  · simp [seqR, pstep, tryFin, hf, acqOk, hrel, hacq, hracq, hrrel, hToRel, hbody]

theorem engineRun_balanced (cfg : RunCfg) (f : StepId → Bool) :
    Balanced f (engineRun cfg f) := by
  unfold engineRun
  refine balanced_neutral_seq (neutral_pstep f _ rfl rfl) ?_
  refine balanced_neutral_seq (neutral_pstep f _ rfl rfl) ?_
  refine balanced_neutral_seq (neutral_pstep f _ rfl rfl) ?_
  refine balanced_scope rfl rfl rfl rfl rfl ?_
  refine balanced_neutral_seq (neutral_pstep f _ rfl rfl) ?_
  refine balanced_neutral_seq
    (neutral_ite _ (neutral_pstep f _ rfl rfl) (neutral_pstep f _ rfl rfl)) ?_
  refine balanced_scope rfl rfl rfl rfl rfl ?_
  refine balanced_scope rfl rfl rfl rfl rfl ?_
  refine balanced_neutral_seq (neutral_pstep f _ rfl rfl) ?_
  refine balanced_neutral_seq (neutral_pstep f _ rfl rfl) ?_
  refine balanced_neutral_seq (neutral_pstep f _ rfl rfl) ?_
  refine balanced_neutral_seq
    (neutral_tryFin (neutral_pstep f _ rfl rfl) (neutral_pstep f _ rfl rfl)) ?_
  refine balanced_neutral_seq (neutral_pstep f _ rfl rfl) ?_
  refine balanced_neutral_seq (neutral_pstep f _ rfl rfl) ?_
  refine balanced_neutral_seq (neutral_pstep f _ rfl rfl) ?_
  refine balanced_neutral_seq (neutral_pstep f _ rfl rfl) ?_
  refine balanced_neutral_seq (neutral_pstep f _ rfl rfl) ?_
  refine balanced_neutral_seq (neutral_cond _ (neutral_pstep f _ rfl rfl)) ?_
  refine balanced_seq_neutral ?_
    (neutral_seq (neutral_pstep f _ rfl rfl) (neutral_pstep f _ rfl rfl))
  refine balanced_scope rfl rfl rfl rfl rfl ?_
  refine balanced_neutral_seq (neutral_pstep f _ rfl rfl) ?_
  refine balanced_neutral_seq (neutral_cond _ (neutral_pstep f _ rfl rfl)) ?_
  refine balanced_neutral_seq
    (neutral_cond _ (neutral_seq (neutral_pstep f _ rfl rfl) (neutral_pstep f _ rfl rfl))) ?_
  refine balanced_neutral_seq (neutral_pstep f _ rfl rfl) ?_
  refine balanced_cond _ ?_
  exact balanced_scope rfl rfl rfl rfl rfl
    (balanced_of_neutral (neutral_pstep f _ rfl rfl))

/-- C1: for every fault model (any set of pipeline steps, forward or cleanup,
may raise) and every engine configuration, the release steps executed by
`BootstrapEngine.run` are exactly the releases of the resources whose
acquisition step ran and succeeded — partition-device activation,
mountpoint directory, partition mount, non-disk chroot mounts, chroot-script
copies — in strict reverse order of acquisition. -/
theorem run_cleanup_reverse_order (cfg : RunCfg) (f : StepId → Bool) :
    (engineRun cfg f).1.filter isRelease
      = (((engineRun cfg f).1.filter (acqOk f)).map toRelease).reverse :=
  engineRun_balanced cfg f

/-- A pipeline piece reports as its error the last failing step it entered:
an exception raised in a `finally:` replaces the in-flight exception. -/
def ErrIsLastFail (f : StepId → Bool) (r : RunRes) : Prop :=
  r.2 = (r.1.filter f).getLast? ∧ (r.2 = none → r.1.filter f = [])

theorem errLast_pstep (f : StepId → Bool) (s : StepId) :
    ErrIsLastFail f (pstep f s) := by
  by_cases hf : f s <;> simp [ErrIsLastFail, pstep, hf]

theorem errLast_skip (f : StepId → Bool) : ErrIsLastFail f skipR := by
  simp [ErrIsLastFail, skipR]

theorem errLast_seq {f : StepId → Bool} {a b : RunRes}
    (ha : ErrIsLastFail f a) (hb : ErrIsLastFail f b) :
    ErrIsLastFail f (seqR a b) := by
  obtain ⟨ha1, ha2⟩ := ha
  obtain ⟨hb1, hb2⟩ := hb
  unfold seqR
  split
  · rename_i h2
    have hfa : a.1.filter f = [] := ha2 h2
    constructor
    · simp [List.filter_append, hfa, hb1]
    · intro h
      simp [List.filter_append, hfa, hb2 h]
  · exact ⟨ha1, ha2⟩

theorem errLast_tryFin {f : StepId → Bool} {a b : RunRes}
    (ha : ErrIsLastFail f a) (hb : ErrIsLastFail f b) :
    ErrIsLastFail f (tryFin a b) := by
  obtain ⟨ha1, ha2⟩ := ha
  obtain ⟨hb1, hb2⟩ := hb
  unfold tryFin
  by_cases h2 : b.2 = none
  · have hfb : b.1.filter f = [] := hb2 h2
    constructor
    · simp [h2, List.filter_append, hfb, ha1]
    · intro h
      simp only [h2, if_pos] at h
      simp [List.filter_append, hfb, ha2 h]
  · obtain ⟨e, he⟩ := Option.ne_none_iff_exists'.mp h2
    have hfb : (b.1.filter f).getLast? = some e := by rw [← hb1, he]
    have hne : b.1.filter f ≠ [] := by
      intro hnil
      rw [hnil] at hfb
      simp at hfb
    constructor
    · rw [List.filter_append, List.getLast?_append_of_ne_nil _ hne, hfb, he]
      simp [h2]
    · intro h
      simp [h2, he] at h

theorem errLast_cond {f : StepId → Bool} {a : RunRes} (c : Prop) [Decidable c]
    (ha : ErrIsLastFail f a) : ErrIsLastFail f (condR c a) := by
  unfold condR
  split
  · exact ha
  · exact errLast_skip f

theorem errLast_ite {f : StepId → Bool} {a b : RunRes} (c : Prop) [Decidable c]
    (ha : ErrIsLastFail f a) (hb : ErrIsLastFail f b) :
    ErrIsLastFail f (if c then a else b) := by
  split
  · exact ha
  · exact hb

theorem engineRun_errLast (cfg : RunCfg) (f : StepId → Bool) :
    ErrIsLastFail f (engineRun cfg f) := by
  unfold engineRun
  repeat' first
    | exact errLast_pstep f _
    | exact errLast_skip f
    | apply errLast_seq
    | apply errLast_tryFin
    | apply errLast_cond
    | apply errLast_ite

/-- C4 (amended): any error aborts the forward pipeline and the full reverse
cleanup chain still runs — every resource whose acquisition step succeeded
has its release step entered, whatever else fails.  But the error reported
to the caller is the one raised by the *last* failing step entered: an
exception raised by a cleanup step replaces the first forward error instead
of being logged. -/
theorem run_error_reporting (cfg : RunCfg) (f : StepId → Bool) :
    (engineRun cfg f).2 = ((engineRun cfg f).1.filter f).getLast?
  ∧ ∀ s, isAcquire s = true → s ∈ (engineRun cfg f).1 → f s = false →
      toRelease s ∈ (engineRun cfg f).1 := by
  constructor
  · exact (engineRun_errLast cfg f).1
  · intro s hs hmem hf
    have hbal := engineRun_balanced cfg f
    unfold Balanced at hbal
    have hsf : s ∈ (engineRun cfg f).1.filter (acqOk f) := by
      rw [List.mem_filter]
      exact ⟨hmem, by simp [acqOk, hs, hf]⟩
    have : toRelease s ∈ (engineRun cfg f).1.filter isRelease := by
      rw [hbal, List.mem_reverse, List.mem_map]
      exact ⟨s, hsf, rfl⟩
    exact List.mem_of_mem_filter this

/-- C4, counterexample to the claim as stated: with the chroot-script step
failing (the first forward error) and the partition unmount failing during
cleanup, `run` reports the cleanup failure, not the first forward error. -/
theorem run_error_reporting_counterexample :
    ((engineRun ⟨true, true, .chrootGrub2Device⟩
        (fun s => s == StepId.runChrootScripts || s == StepId.unmountDiskChrootMounts)).1.filter
      (fun s => (s == StepId.runChrootScripts || s == StepId.unmountDiskChrootMounts)
          && ! isCleanup s)) = [StepId.runChrootScripts]
  ∧ (engineRun ⟨true, true, .chrootGrub2Device⟩
        (fun s => s == StepId.runChrootScripts || s == StepId.unmountDiskChrootMounts)).2
      = some StepId.unmountDiskChrootMounts := by
  constructor
  · rfl
  · rfl

/-- Witness for `run_error_reporting` at a concrete configuration and fault
model. -/
theorem run_error_reporting_witness :
    (engineRun ⟨true, true, .chrootGrub2Device⟩
        (fun s => s == StepId.runChrootScripts || s == StepId.unmountDiskChrootMounts)).2
      = some StepId.unmountDiskChrootMounts
  ∧ StepId.kpartxMinusD ∈ (engineRun ⟨true, true, .chrootGrub2Device⟩
        (fun s => s == StepId.runChrootScripts || s == StepId.unmountDiskChrootMounts)).1 := by
  constructor
  · rw [(run_error_reporting ⟨true, true, .chrootGrub2Device⟩
        (fun s => s == StepId.runChrootScripts || s == StepId.unmountDiskChrootMounts)).1]
    rfl
  · exact (run_error_reporting ⟨true, true, .chrootGrub2Device⟩
        (fun s => s == StepId.runChrootScripts || s == StepId.unmountDiskChrootMounts)).2
      StepId.kpartxMinusA (by rfl) (by decide) (by rfl)

/-
The retry loop shared by the four settling-sensitive call sites: setting the
boot flag (engine.py 334-342), partprobe (377-385), umount (695-703) and
kpartx -d (732-740):

    for i in range(3):
        try:
            self._executor.check_call(cmd)
        except subprocess.CalledProcessError as e:
            if e.returncode == _EXIT_COMMAND_NOT_FOUND:
                raise
            time.sleep(1)
        else:
            break

`res i` is the exit status of attempt `i` (`none` = exit 0).
-/

/-- Outcome of one retry loop: how many attempts ran, how many 1 s sleeps
happened, whether some attempt succeeded, and the exception propagating out
of the loop (`none` when the loop fell through — note that after three
non-127 failures the loop also falls through with no exception). -/
structure RetryOut where
  attempts : Nat
  sleeps : Nat
  ok : Bool
  err : Option Nat
  deriving DecidableEq, Repr

def retryAux (res : Nat → Option Nat) (i : Nat) : Nat → RetryOut
  | 0 => ⟨0, 0, false, none⟩
  | n + 1 =>
    match res i with
    | none => ⟨1, 0, true, none⟩
    | some c =>
      if c = 127 then ⟨1, 0, false, some c⟩
      else
        let r := retryAux res (i + 1) n
        ⟨r.attempts + 1, r.sleeps + 1, r.ok, r.err⟩

/-- The 3-attempt retry loop of engine.py (see block comment above). -/
def retryCall (res : Nat → Option Nat) : RetryOut :=
  retryAux res 0 3

/-- C2, counterexample to the claim as stated: a retried command failing all
3 attempts with exit 1 does *not* abort the pipeline — the loop swallows
the third failure and falls through with no exception in flight. -/
theorem retry_exhaustion_counterexample :
    (retryCall (fun _ => some 1)).err = none
  ∧ (retryCall (fun _ => some 1)).attempts = 3
  ∧ (retryCall (fun _ => some 1)).sleeps = 3 := by
  refine ⟨rfl, rfl, rfl⟩

/-- C2 (amended): under the retry policy of engine.py (boot flag, partprobe,
kpartx -d, umount), a command whose first attempt exits 127 aborts after
exactly one attempt with no sleep; a command failing all 3 attempts with a
non-127 exit status is attempted exactly 3 times with a 1 s sleep after each
failed attempt, and then the failure is swallowed — the loop raises nothing
and the pipeline continues; a command succeeding on the first attempt is
attempted once. -/
theorem retry_policy (res : Nat → Option Nat) :
    (res 0 = some 127 → retryCall res = ⟨1, 0, false, some 127⟩)
  ∧ ((∀ i, i < 3 → res i ≠ none ∧ res i ≠ some 127) →
      retryCall res = ⟨3, 3, false, none⟩)
  ∧ (res 0 = none → retryCall res = ⟨1, 0, true, none⟩) := by
  refine ⟨?_, ?_, ?_⟩
  · intro h
    simp [retryCall, retryAux, h]
  · intro h
    obtain ⟨h0n, h0c⟩ := h 0 (by omega)
    obtain ⟨h1n, h1c⟩ := h 1 (by omega)
    obtain ⟨h2n, h2c⟩ := h 2 (by omega)
    obtain ⟨c0, hc0⟩ := Option.ne_none_iff_exists'.mp h0n
    obtain ⟨c1, hc1⟩ := Option.ne_none_iff_exists'.mp h1n
    obtain ⟨c2, hc2⟩ := Option.ne_none_iff_exists'.mp h2n
    have hc0' : c0 ≠ 127 := by rintro rfl; exact h0c hc0
    have hc1' : c1 ≠ 127 := by rintro rfl; exact h1c hc1
    have hc2' : c2 ≠ 127 := by rintro rfl; exact h2c hc2
    simp [retryCall, retryAux, hc0, hc1, hc2, hc0', hc1', hc2']
  · intro h
    simp [retryCall, retryAux, h]

/-- Witness for `retry_policy`: exit 127 on the first attempt aborts after a
single attempt with no sleeps. -/
theorem retry_policy_witness :
    retryCall (fun _ => some 127) = ⟨1, 0, false, some 127⟩ :=
  (retry_policy (fun _ => some 127)).1 rfl

/-
Partition device activation: `BootstrapEngine._kpartx_minus_a`
(engine.py lines 344-393).  Inputs of the embedding:
  lsOut  - the stdout of `kpartx -l -p p target`;
  ex     - oracle for the successive `os.path.exists(first_partition_device)`
           checks, indexed by how many such checks happened before;
  ppRes  - exit status of the successive `partprobe` attempts
           (`none` = exit 0);
  kaRes  - exit status of `kpartx -a -p p -s target` (`none` = exit 0).
-/

/-- Micro-events of `_kpartx_minus_a`. -/
inductive KEv where
  | cmdKpartxList
  | cmdKpartxAdd
  | cmdPartprobe
  | sleep1
  | checkNode (res : Bool)
  deriving DecidableEq, Repr

/-- Errors `_kpartx_minus_a` can raise: `OSError(EEXIST)` for a stale loop
node, a propagating `CalledProcessError`, and `OSError(ENOENT)` when the
partition device node never appeared (PartitionDeviceMissing). -/
inductive KErr where
  | fileExists
  | commandFailed (code : Nat)
  | partitionDeviceMissing
  deriving DecidableEq, Repr

/-- Ghost state tracking the runtime field `_abs_first_partition_device`
together with whether the kernel has been told about the partitions of the
target and whether the device node has been observed to exist. -/
structure KState where
  firstPartitionDevice : Option String
  kernelTold : Bool
  nodeObserved : Bool
  deriving DecidableEq, Repr

structure KResult where
  trace : List KEv
  states : List KState
  dev : String
  err : Option KErr
  deriving DecidableEq, Repr

/-- The `partprobe` retry loop (engine.py 377-385): the same loop shape as
`retryCall`, producing the event trace; the Bool records whether some
attempt succeeded. -/
def ppLoop (res : Nat → Option Nat) (i : Nat) : Nat → List KEv × Bool × Option KErr
  | 0 => ([], false, none)
  | n + 1 =>
    match res i with
    | none => ([KEv.cmdPartprobe], true, none)
    | some c =>
      if c = 127 then ([KEv.cmdPartprobe], false, some (KErr.commandFailed c))
      else
        let r := ppLoop res (i + 1) n
        (KEv.cmdPartprobe :: KEv.sleep1 :: r.1, r.2)

/-- The polling loop for the device node (engine.py 387-393): check, break
when present, else sleep 1 s; `for ... else` raises when all checks failed. -/
def pollNode (ex : Nat → Bool) (base : Nat) : Nat → List KEv × Bool
  | 0 => ([], false)
  | n + 1 =>
    if ex base then ([KEv.checkNode true], true)
    else
      let r := pollNode ex (base + 1) n
      (KEv.checkNode false :: KEv.sleep1 :: r.1, r.2)

/-- Whether the pattern (first argument) is an initial segment of the second
argument. -/
def leadsWith : List Char → List Char → Bool
  | [], _ => true
  | _ :: _, [] => false
  | p :: ps, c :: cs => (p == c) && leadsWith ps cs

/-- Python `s.startswith(p)`. -/
def strStartsWith (s p : String) : Bool :=
  leadsWith p.data s.data

/-- Python `s.endswith(p)`. -/
def strEndsWith (s p : String) : Bool :=
  leadsWith p.data.reverse s.data.reverse

/-- The characters before the first occurrence of `sep`; the whole list when
`sep` does not occur.  This is Python `l.split(sep)[0]`. -/
def takeUntilSub (sep : List Char) : List Char → List Char
  | [] => []
  | c :: cs => if leadsWith sep (c :: cs) then [] else c :: takeUntilSub sep cs

/-- `output.split('\n')[0].split(' : ')[0]` (engine.py line 353). -/
def firstKpartxToken (lsOut : String) : String :=
  String.mk (takeUntilSub (" : ".data) (takeUntilSub ['\n'] lsOut.data))

/-- `BootstrapEngine._kpartx_minus_a` (engine.py lines 344-393). -/
def kpartxMinusA (lsOut : String) (ex : Nat → Bool) (ppRes : Nat → Option Nat)
    (kaRes : Option Nat) : KResult :=
  let name := firstKpartxToken lsOut
  let dev := "/dev/mapper/" ++ name
  let s1 : KState := ⟨some dev, false, false⟩
  if strStartsWith name "loop" then
    if ex 0 then
      { trace := [KEv.cmdKpartxList, KEv.checkNode true],
        states := [⟨none, false, false⟩, s1, ⟨some dev, false, true⟩],
        dev := dev, err := some KErr.fileExists }
    else
      match kaRes with
      | some c =>
          { trace := [KEv.cmdKpartxList, KEv.checkNode false, KEv.cmdKpartxAdd],
            states := [⟨none, false, false⟩, s1],
            dev := dev, err := some (KErr.commandFailed c) }
      | none =>
          let r := pollNode ex 1 3
          { trace := [KEv.cmdKpartxList, KEv.checkNode false, KEv.cmdKpartxAdd] ++ r.1,
            states := [⟨none, false, false⟩, s1, ⟨some dev, true, false⟩,
                       ⟨some dev, true, r.2⟩],
            dev := dev,
            err := if r.2 then none else some KErr.partitionDeviceMissing }
  else
    let p := ppLoop ppRes 0 3
    match p.2.2 with
    | some e =>
        { trace := KEv.cmdKpartxList :: KEv.sleep1 :: p.1,
          states := [⟨none, false, false⟩, s1, ⟨some dev, p.2.1, false⟩],
          dev := dev, err := some e }
    | none =>
        let r := pollNode ex 0 3
        { trace := (KEv.cmdKpartxList :: KEv.sleep1 :: p.1) ++ r.1,
          states := [⟨none, false, false⟩, s1, ⟨some dev, p.2.1, false⟩,
                     ⟨some dev, p.2.1, r.2⟩],
          dev := dev,
          err := if r.2 then none else some KErr.partitionDeviceMissing }

theorem ppLoop_retry (res : Nat → Option Nat) :
    ∀ n i, (ppLoop res i n).1.count KEv.cmdPartprobe = (retryAux res i n).attempts
      ∧ (ppLoop res i n).2.2 = (retryAux res i n).err.map KErr.commandFailed
      ∧ (ppLoop res i n).2.1 = (retryAux res i n).ok
      ∧ (ppLoop res i n).1.count KEv.cmdKpartxAdd = 0 := by
  intro n
  induction n with
  | zero => intro i; simp [ppLoop, retryAux]
  | succ n ih =>
    intro i
    rcases hres : res i with _ | c
    · simp [ppLoop, retryAux, hres]
    · by_cases hc : c = 127
      · simp [ppLoop, retryAux, hres, hc]
      · obtain ⟨ih1, ih2, ih3, ih4⟩ := ih (i + 1)
        simp [ppLoop, retryAux, hres, hc, ih1, ih2, ih3, ih4, List.count_cons]

theorem pollNode_found (ex : Nat → Bool) (b : Nat) :
    (pollNode ex b 3).2 = (ex b || ex (b + 1) || ex (b + 2)) := by
  by_cases h0 : ex b <;> by_cases h1 : ex (b + 1) <;> by_cases h2 : ex (b + 2) <;>
    simp [pollNode, h0, h1, h2]

theorem pollNode_counts (ex : Nat → Bool) :
    ∀ n b, (pollNode ex b n).1.count KEv.cmdPartprobe = 0
      ∧ (pollNode ex b n).1.count KEv.cmdKpartxAdd = 0 := by
  intro n
  induction n with
  | zero => intro b; simp [pollNode]
  | succ n ih =>
    intro b
    obtain ⟨ih1, ih2⟩ := ih (b + 1)
    by_cases h : ex b <;> simp [pollNode, h, ih1, ih2, List.count_cons]

/-- C6: partition activation parses the first `kpartx -l` output line's token
before " : " and prefixes it with "/dev/mapper/"; when the token begins with
"loop" it never calls partprobe, refuses with a file-exists error when the
node already exists (running no `kpartx -a`), and otherwise runs `kpartx -a`
exactly once; when the token does not begin with "loop" it never calls
`kpartx -a` and runs `partprobe` exactly as many times as the 3-attempt
retry policy does; in both branches it then polls the node's existence up to
3 times with 1 s backoff and raises PartitionDeviceMissing exactly when all
three checks come back absent. -/
theorem kpartx_activation (lsOut : String) (ex : Nat → Bool)
    (ppRes : Nat → Option Nat) (kaRes : Option Nat) :
    (kpartxMinusA lsOut ex ppRes kaRes).dev
        = "/dev/mapper/" ++ firstKpartxToken lsOut
  ∧ (strStartsWith (firstKpartxToken lsOut) "loop" = true →
      (kpartxMinusA lsOut ex ppRes kaRes).trace.count KEv.cmdPartprobe = 0)
  ∧ (strStartsWith (firstKpartxToken lsOut) "loop" = true → ex 0 = true →
      (kpartxMinusA lsOut ex ppRes kaRes).err = some KErr.fileExists
      ∧ (kpartxMinusA lsOut ex ppRes kaRes).trace.count KEv.cmdKpartxAdd = 0)
  ∧ (strStartsWith (firstKpartxToken lsOut) "loop" = true → ex 0 = false →
      (kpartxMinusA lsOut ex ppRes kaRes).trace.count KEv.cmdKpartxAdd = 1)
  ∧ (strStartsWith (firstKpartxToken lsOut) "loop" = false →
      (kpartxMinusA lsOut ex ppRes kaRes).trace.count KEv.cmdPartprobe
          = (retryCall ppRes).attempts
      ∧ (kpartxMinusA lsOut ex ppRes kaRes).trace.count KEv.cmdKpartxAdd = 0)
  ∧ (strStartsWith (firstKpartxToken lsOut) "loop" = false →
      (retryCall ppRes).err = none →
      ((kpartxMinusA lsOut ex ppRes kaRes).err = some KErr.partitionDeviceMissing
        ↔ ex 0 = false ∧ ex 1 = false ∧ ex 2 = false))
  ∧ (strStartsWith (firstKpartxToken lsOut) "loop" = true → ex 0 = false →
      kaRes = none →
      ((kpartxMinusA lsOut ex ppRes kaRes).err = some KErr.partitionDeviceMissing
        ↔ ex 1 = false ∧ ex 2 = false ∧ ex 3 = false)) := by
  obtain ⟨hc1, hc2, hc3, hc4⟩ := ppLoop_retry ppRes 3 0
  obtain ⟨hp1, hp2⟩ := pollNode_counts ex 3 0
  obtain ⟨hq1, hq2⟩ := pollNode_counts ex 3 1
  refine ⟨?_, ?_, ?_, ?_, ?_, ?_, ?_⟩
  · by_cases hl : strStartsWith (firstKpartxToken lsOut) "loop"
    · by_cases he : ex 0
      · simp [kpartxMinusA, hl, he]
      · cases kaRes <;> simp [kpartxMinusA, hl, he]
    · cases hpe : (ppLoop ppRes 0 3).2.2 <;> simp [kpartxMinusA, hl, hpe]
  · intro hl
    by_cases he : ex 0
    · simp [kpartxMinusA, hl, he, List.count_cons]
    · cases kaRes <;>
        simp [kpartxMinusA, hl, he, List.count_append, List.count_cons, hq1]
  · intro hl he
    constructor <;> simp [kpartxMinusA, hl, he, List.count_cons]
  · intro hl he
    cases kaRes <;>
      simp [kpartxMinusA, hl, he, List.count_append, List.count_cons, hq2]
  · intro hl
    cases hpe : (ppLoop ppRes 0 3).2.2 with
    | none =>
      constructor <;>
        simp [kpartxMinusA, hl, hpe, List.count_append, List.count_cons, hp1, hp2,
          show (ppLoop ppRes 0 3).1.count KEv.cmdPartprobe = (retryCall ppRes).attempts from hc1,
          show (ppLoop ppRes 0 3).1.count KEv.cmdKpartxAdd = 0 from hc4]
    | some e =>
      constructor <;>
        simp [kpartxMinusA, hl, hpe, List.count_cons,
          show (ppLoop ppRes 0 3).1.count KEv.cmdPartprobe = (retryCall ppRes).attempts from hc1,
          show (ppLoop ppRes 0 3).1.count KEv.cmdKpartxAdd = 0 from hc4]
  · intro hl hre
    have hpe : (ppLoop ppRes 0 3).2.2 = none := by
      rw [hc2]
      show ((retryCall ppRes).err).map KErr.commandFailed = none
      rw [hre]
      rfl
    have hfound := pollNode_found ex 0
    rcases h0 : ex 0 <;> rcases h1 : ex 1 <;> rcases h2 : ex 2 <;>
      simp [kpartxMinusA, hl, hpe, hfound, h0, h1, h2]
  · intro hl he hka
    subst hka
    have hfound := pollNode_found ex 1
    rcases h1 : ex 1 <;> rcases h2 : ex 2 <;> rcases h3 : ex 3 <;>
      simp [kpartxMinusA, hl, he, hfound, h1, h2, h3]

/-- Witness for `kpartx_activation`: on a loop device with a stale node
absent and `kpartx -a` succeeding but the node never appearing, the run
raises PartitionDeviceMissing. -/
theorem kpartx_activation_witness :
    (kpartxMinusA "loop0p1 : 0 204800 /dev/loop0 2048" (fun _ => false)
        (fun _ => none) none).err = some KErr.partitionDeviceMissing := by
  refine ((kpartx_activation "loop0p1 : 0 204800 /dev/loop0 2048" (fun _ => false)
      (fun _ => none) none).2.2.2.2.2.2 (by decide) rfl rfl).mpr ⟨rfl, rfl, rfl⟩

/-- The state invariant claimed for the runtime field
`_abs_first_partition_device`: non-empty iff the kernel has been told about
the partitions of the target and the device node has been observed to
exist. -/
def deviceFieldInvariant (s : KState) : Prop :=
  s.firstPartitionDevice ≠ none ↔ (s.kernelTold = true ∧ s.nodeObserved = true)

/-- C7, counterexample to the claim as stated: `_kpartx_minus_a` assigns
`_abs_first_partition_device` right after parsing the `kpartx -l` output
(engine.py line 354), before the kernel has been told anything and before
any existence check, so the run passes through a state where the field is
non-empty but neither condition holds. -/
theorem device_field_invariant_counterexample :
    (⟨some "/dev/mapper/sda1", false, false⟩ : KState)
      ∈ (kpartxMinusA "sda1 : 0 204800 /dev/sda 2048" (fun _ => true)
          (fun _ => none) none).states
  ∧ ¬ deviceFieldInvariant ⟨some "/dev/mapper/sda1", false, false⟩ := by
  constructor
  · decide
  · intro h
    have := h.mp (by simp)
    exact absurd this.1 (by simp)

/-- C7 (amended): the field starts empty, is assigned the parsed
"/dev/mapper/" device name right after the `kpartx -l` parse — before the
kernel has been told about the partitions and before the node has been
observed — and when `_kpartx_minus_a` returns successfully the final state
additionally has the node observed to exist. -/
theorem device_field_lifecycle (lsOut : String) (ex : Nat → Bool)
    (ppRes : Nat → Option Nat) (kaRes : Option Nat) :
    (kpartxMinusA lsOut ex ppRes kaRes).states.head? = some ⟨none, false, false⟩
  ∧ (kpartxMinusA lsOut ex ppRes kaRes).states.get? 1
      = some ⟨some ("/dev/mapper/" ++ firstKpartxToken lsOut), false, false⟩
  ∧ ((kpartxMinusA lsOut ex ppRes kaRes).err = none →
      ((kpartxMinusA lsOut ex ppRes kaRes).states.getLast?.map KState.nodeObserved)
        = some true
      ∧ ((kpartxMinusA lsOut ex ppRes kaRes).states.getLast?.map
            KState.firstPartitionDevice)
        = some (some ("/dev/mapper/" ++ firstKpartxToken lsOut))) := by
  refine ⟨?_, ?_, ?_⟩
  · by_cases hl : strStartsWith (firstKpartxToken lsOut) "loop"
    · by_cases he : ex 0
      · simp [kpartxMinusA, hl, he]
      · cases kaRes <;> simp [kpartxMinusA, hl, he]
    · cases hpe : (ppLoop ppRes 0 3).2.2 <;> simp [kpartxMinusA, hl, hpe]
  · by_cases hl : strStartsWith (firstKpartxToken lsOut) "loop"
    · by_cases he : ex 0
      · simp [kpartxMinusA, hl, he]
      · cases kaRes <;> simp [kpartxMinusA, hl, he]
    · cases hpe : (ppLoop ppRes 0 3).2.2 <;> simp [kpartxMinusA, hl, hpe]
  · intro herr
    by_cases hl : strStartsWith (firstKpartxToken lsOut) "loop"
    · by_cases he : ex 0
      · simp [kpartxMinusA, hl, he] at herr
      · cases hka : kaRes with
        | some c => simp [kpartxMinusA, hl, he, hka] at herr
        | none =>
          rcases hr : (pollNode ex 1 3).2 with _ | _
          · simp [kpartxMinusA, hl, he, hka, hr] at herr
          · constructor <;> simp [kpartxMinusA, hl, he, hka, hr]
    · cases hpe : (ppLoop ppRes 0 3).2.2 with
      | some e => simp [kpartxMinusA, hl, hpe] at herr
      | none =>
        rcases hr : (pollNode ex 0 3).2 with _ | _
        · simp [kpartxMinusA, hl, hpe, hr] at herr
        · constructor <;> simp [kpartxMinusA, hl, hpe, hr]

/-- Witness for `device_field_lifecycle` on a successful non-loop run. -/
theorem device_field_lifecycle_witness :
    ((kpartxMinusA "sda1 : 0 204800 /dev/sda 2048" (fun _ => true)
        (fun _ => none) none).states.getLast?.map KState.nodeObserved)
      = some true :=
  ((device_field_lifecycle "sda1 : 0 204800 /dev/sda 2048" (fun _ => true)
      (fun _ => none) none).2.2 rfl).1

/-
Hook scripts.  `_run_scripts_from` (engine.py 503-509) iterates
`sorted(os.listdir(abs_scripts_dir))`; `_run_chroot_scripts` (engine.py
656-668) iterates `os.listdir(self._abs_scripts_dir_chroot)` with no
`sorted()`.  `listing` is the directory listing in the order the OS returns
it; `exitOf s` is the exit status of script `s`.
-/

/-- `BootstrapEngine._script_should_be_run` (engine.py 232-237). -/
def scriptShouldBeRun (basename : String) : Bool :=
  if strStartsWith basename "." then false
  else if strEndsWith basename "~" then false
  else true

/-- Lexicographic strict comparison of char lists by code point — the
comparison Python uses on strings. -/
def charListLt : List Char → List Char → Bool
  | [], [] => false
  | [], _ :: _ => true
  | _ :: _, [] => false
  | a :: as, b :: bs =>
    if a.toNat < b.toNat then true
    else if b.toNat < a.toNat then false
    else charListLt as bs

/-- Python `a < b` on strings. -/
def strLt (a b : String) : Bool :=
  charListLt a.data b.data

/-- Insertion of a string into a sorted list. -/
def insertStr (x : String) : List String → List String
  | [] => [x]
  | y :: ys => if strLt y x then y :: insertStr x ys else x :: y :: ys

/-- Python `sorted` on strings, as a stable insertion sort. -/
def sortStrs : List String → List String
  | [] => []
  | x :: xs => insertStr x (sortStrs xs)

/-- Run the given scripts in order; `check_call` raises on the first
non-zero exit and aborts the loop.  Returns the scripts invoked and the
failing one, if any. -/
def runScriptsGo (exitOf : String → Nat) : List String → List String × Option String
  | [] => ([], none)
  | s :: rest =>
    if exitOf s = 0 then
      let r := runScriptsGo exitOf rest
      (s :: r.1, r.2)
    else ([s], some s)

/-- `BootstrapEngine._run_scripts_from` (engine.py 503-509): sorted listing,
ineligible basenames skipped, abort on first failure. -/
def runScriptsFrom (listing : List String) (exitOf : String → Nat) :
    List String × Option String :=
  runScriptsGo exitOf ((sortStrs listing).filter scriptShouldBeRun)

/-- `BootstrapEngine._run_chroot_scripts` (engine.py 656-668): the raw
`os.listdir` order, NOT sorted; ineligible basenames skipped, abort on
first failure. -/
def runChrootScripts (listing : List String) (exitOf : String → Nat) :
    List String × Option String :=
  runScriptsGo exitOf (listing.filter scriptShouldBeRun)

theorem charListLt_asymm : ∀ a b : List Char,
    charListLt a b = true → charListLt b a = false
  | [], [] => by simp [charListLt]
  | [], _ :: _ => fun _ => rfl
  | _ :: _, [] => by simp [charListLt]
  | a' :: as, b' :: bs => by
    intro h
    simp only [charListLt] at h ⊢
    by_cases hab : a'.toNat < b'.toNat
    · have hba : ¬ b'.toNat < a'.toNat := by omega
      simp [hab, hba]
    · by_cases hba : b'.toNat < a'.toNat
      · simp [hab, hba] at h
      · simp only [hab, hba, if_false] at h ⊢
        exact charListLt_asymm as bs h

theorem charListLt_le_trans : ∀ a b c : List Char,
    charListLt b a = false → charListLt c b = false → charListLt c a = false
  | [], [], [] => fun _ _ => rfl
  | [], [], _ :: _ => fun _ h2 => h2
  | [], _ :: _, [] => fun _ _ => rfl
  | [], _ :: _, _ :: _ => fun _ _ => rfl
  | _ :: _, [], _ => fun h1 _ => by simp [charListLt] at h1
  | _ :: _, _ :: _, [] => fun _ h2 => by simp [charListLt] at h2
  | a' :: as, b' :: bs, c' :: cs => by
    intro h1 h2
    simp only [charListLt] at h1 h2 ⊢
    by_cases hba : b'.toNat < a'.toNat
    · simp [hba] at h1
    · by_cases hcb : c'.toNat < b'.toNat
      · simp [hcb] at h2
      · have hca : ¬ c'.toNat < a'.toNat := by omega
        simp only [hba, hcb, if_false] at h1 h2
        simp only [hca, if_false]
        by_cases hac : a'.toNat < c'.toNat
        · simp [hac]
        · have hab : ¬ a'.toNat < b'.toNat := by omega
          have hbc : ¬ b'.toNat < c'.toNat := by omega
          simp only [hab, if_false] at h1
          simp only [hbc, if_false] at h2
          simp only [hac, if_false]
          exact charListLt_le_trans as bs cs h1 h2

theorem strLt_asymm {a b : String} (h : strLt a b = true) : strLt b a = false :=
  charListLt_asymm a.data b.data h

theorem strLe_trans {a b c : String} (h1 : strLt b a = false)
    (h2 : strLt c b = false) : strLt c a = false :=
  charListLt_le_trans a.data b.data c.data h1 h2

theorem mem_insertStr {a x : String} : ∀ {l : List String},
    a ∈ insertStr x l ↔ a = x ∨ a ∈ l
  | [] => by simp [insertStr]
  | y :: ys => by
    unfold insertStr
    split
    · simp only [List.mem_cons, mem_insertStr (l := ys)]
      tauto
    · simp only [List.mem_cons]
      try tauto

theorem pairwise_insertStr {x : String} : ∀ {l : List String},
    l.Pairwise (fun a b => strLt b a = false) →
    (insertStr x l).Pairwise (fun a b => strLt b a = false)
  | [], _ => by simp [insertStr]
  | y :: ys, h => by
    rw [List.pairwise_cons] at h
    obtain ⟨hy, hys⟩ := h
    unfold insertStr
    split
    · rename_i hlt
      rw [List.pairwise_cons]
      refine ⟨?_, pairwise_insertStr hys⟩
      intro a ha
      rcases mem_insertStr.mp ha with rfl | ha'
      · exact strLt_asymm hlt
      · exact hy a ha'
    · rename_i hnlt
      rw [List.pairwise_cons]
      refine ⟨?_, List.pairwise_cons.mpr ⟨hy, hys⟩⟩
      intro a ha
      rcases List.mem_cons.mp ha with rfl | ha'
      · simpa using hnlt
      · exact strLe_trans (by simpa using hnlt) (hy a ha')

theorem sortStrs_pairwise :
    ∀ l : List String, (sortStrs l).Pairwise (fun a b => strLt b a = false)
  | [] => by simp [sortStrs]
  | x :: xs => pairwise_insertStr (sortStrs_pairwise xs)

theorem runScriptsGo_sublist (exitOf : String → Nat) :
    ∀ l : List String, (runScriptsGo exitOf l).1.Sublist l
  | [] => by simp [runScriptsGo]
  | s :: rest => by
    unfold runScriptsGo
    split
    · exact (runScriptsGo_sublist exitOf rest).cons₂ s
    · exact (List.nil_sublist rest).cons₂ s

theorem runScriptsGo_err (exitOf : String → Nat) :
    ∀ l : List String, (runScriptsGo exitOf l).2
      = l.find? (fun s => !(exitOf s == 0))
  | [] => rfl
  | s :: rest => by
    unfold runScriptsGo
    by_cases h : exitOf s = 0 <;>
      simp [h, List.find?_cons, runScriptsGo_err exitOf rest]

/-- C3, counterexample to the claim as stated: when the OS returns the
chroot scripts directory listing as ["b", "a"], the chroot phase runs "b"
before "a" — `_run_chroot_scripts` iterates `os.listdir` without `sorted()`,
so the chroot phase is not in lexicographic order of basename. -/
theorem chroot_scripts_order_counterexample :
    (runChrootScripts ["b", "a"] (fun _ => 0)).1 = ["b", "a"]
  ∧ (sortStrs (["b", "a"].filter scriptShouldBeRun)) = ["a", "b"]
  ∧ (["b", "a"] : List String) ≠ ["a", "b"] := by
  refine ⟨by decide, by decide, by decide⟩

/-- C3 (amended): the pre-chroot and post-chroot phases run the eligible
scripts (basenames not starting with "." and not ending with "~") in
lexicographic order of basename, a directory {a, b, .hidden, c~, d} running
exactly a, b, d in that order, and a non-zero exit aborts the phase at the
first failing script; the chroot phase skips the same basenames and aborts
the same way, but runs the scripts in the unsorted `os.listdir` order. -/
theorem scripts_execution (listing : List String) (exitOf : String → Nat) :
    (runScriptsFrom listing exitOf).1.Pairwise (fun a b => strLt b a = false)
  ∧ (∀ s ∈ (runScriptsFrom listing exitOf).1, scriptShouldBeRun s = true)
  ∧ (runScriptsFrom listing exitOf).2
      = ((sortStrs listing).filter scriptShouldBeRun).find? (fun s => !(exitOf s == 0))
  ∧ (∀ s ∈ (runChrootScripts listing exitOf).1, scriptShouldBeRun s = true)
  ∧ (runChrootScripts listing exitOf).2
      = (listing.filter scriptShouldBeRun).find? (fun s => !(exitOf s == 0))
  ∧ (runScriptsFrom ["a", "b", ".hidden", "c~", "d"] (fun _ => 0)).1
      = ["a", "b", "d"] := by
  refine ⟨?_, ?_, ?_, ?_, ?_, by decide⟩
  · exact ((sortStrs_pairwise listing).filter scriptShouldBeRun).sublist
      (runScriptsGo_sublist exitOf _)
  · intro s hs
    have := (runScriptsGo_sublist exitOf _).subset hs
    exact (List.mem_filter.mp this).2
  · exact runScriptsGo_err exitOf _
  · intro s hs
    have := (runScriptsGo_sublist exitOf _).subset hs
    exact (List.mem_filter.mp this).2
  · exact runScriptsGo_err exitOf _

/-- Witness for `scripts_execution`: in the example directory, ".hidden" is
skipped and the phase reports the failure of script "b". -/
theorem scripts_execution_witness :
    scriptShouldBeRun "d" = true
  ∧ (runScriptsFrom ["d", ".hidden", "b"] (fun s => if s = "b" then 1 else 0)).2
      = some "b" := by
  constructor
  · exact (scripts_execution ["a", "b", ".hidden", "c~", "d"] (fun _ => 0)).2.1
      "d" (by decide)
  · rw [(scripts_execution ["d", ".hidden", "b"]
      (fun s => if s = "b" then 1 else 0)).2.2.1]
    decide

/-
UUID resolution and fstab.  `run` (engine.py 785-789) imposes a configured
UUID via `_set_first_partition_uuid` (454-463, tune2fs -U) or reads one
back via `_gather_first_partition_uuid` (465-475, blkid + rstrip +
validation); `_create_etc_fstab` (477-482) later writes the single fstab
line from the same field, to which nothing assigns in between.
-/

/-- Python `str.rstrip()` (engine.py line 473): strip trailing whitespace. -/
def rstrip (s : String) : String :=
  String.mk (s.data.reverse.dropWhile Char.isWhitespace).reverse

/-- Modelled from the spec: the UUID validator
`image_bootstrap.types.uuid.require_valid_uuid` lives in
image_bootstrap/types/uuid.py, which is not under src/; per the spec it
accepts exactly the canonical 8-4-4-4-12 hex form. -/
def isValidUuid (s : String) : Bool :=
  (s.data.length == 36) &&
  ((List.range 36).all fun i =>
    let c := s.data.getD i ' '
    if i = 8 ∨ i = 13 ∨ i = 18 ∨ i = 23 then c == '-'
    else (decide ('0'.toNat ≤ c.toNat) && decide (c.toNat ≤ '9'.toNat))
      || (decide ('a'.toNat ≤ c.toNat) && decide (c.toNat ≤ 'f'.toNat))
      || (decide ('A'.toNat ≤ c.toNat) && decide (c.toNat ≤ 'F'.toNat)))

/-- Commands of the UUID resolution step. -/
inductive UCmd where
  | tune2fs (uuid : String)
  | blkid
  deriving DecidableEq, Repr

inductive UErr where
  | commandFailed (code : Nat)
  | invalidUuid
  deriving DecidableEq, Repr

structure UuidFstab where
  trace : List UCmd
  uuid : Option String
  fstab : Option String
  err : Option UErr
  deriving DecidableEq, Repr

/-- The single line written by `_create_etc_fstab` (engine.py 481); `print`
appends the newline. -/
def fstabLine (uuid : String) : String :=
  "/dev/disk/by-uuid/" ++ uuid ++ " / auto defaults 0 1\n"

/-- engine.py 785-789 followed by `_create_etc_fstab`: `cfgUuid` is the
configured `first_partition_uuid` (Python truthiness: `None` and the empty
string are both falsy), `tune2fsRes`/`blkidRes` are exit statuses (`none` =
success), `blkidOut` the blkid stdout. -/
def resolveUuidAndFstab (cfgUuid : Option String) (tune2fsRes : Option Nat)
    (blkidOut : String) (blkidRes : Option Nat) : UuidFstab :=
  if cfgUuid.getD "" ≠ "" then
    let u := cfgUuid.getD ""
    match tune2fsRes with
    | some c => { trace := [UCmd.tune2fs u], uuid := some u, fstab := none,
                  err := some (UErr.commandFailed c) }
    | none => { trace := [UCmd.tune2fs u], uuid := some u,
                fstab := some (fstabLine u), err := none }
  else
    match blkidRes with
    | some c => { trace := [UCmd.blkid], uuid := cfgUuid, fstab := none,
                  err := some (UErr.commandFailed c) }
    | none =>
      let u := rstrip blkidOut
      if isValidUuid u then
        { trace := [UCmd.blkid], uuid := some u, fstab := some (fstabLine u),
          err := none }
      else
        { trace := [UCmd.blkid], uuid := cfgUuid, fstab := none,
          err := some UErr.invalidUuid }

/-- C5: a configured `first_partition_uuid` is imposed via `tune2fs -U` and
blkid is never consulted, and the /etc/fstab written is exactly the one
line `/dev/disk/by-uuid/<that exact UUID> / auto defaults 0 1`; with no
configured UUID, blkid is consulted (tune2fs is not run), its output is
stripped of trailing whitespace and validated, and the fstab line
references exactly the stripped blkid answer; an invalid answer aborts
with no fstab written. -/
theorem uuid_fstab_roundtrip (cfgUuid : Option String) (tune2fsRes : Option Nat)
    (blkidOut : String) (blkidRes : Option Nat) :
    (cfgUuid.getD "" ≠ "" →
      (resolveUuidAndFstab cfgUuid tune2fsRes blkidOut blkidRes).trace
          = [UCmd.tune2fs (cfgUuid.getD "")]
      ∧ UCmd.blkid ∉ (resolveUuidAndFstab cfgUuid tune2fsRes blkidOut blkidRes).trace
      ∧ (tune2fsRes = none →
          (resolveUuidAndFstab cfgUuid tune2fsRes blkidOut blkidRes).fstab
            = some ("/dev/disk/by-uuid/" ++ cfgUuid.getD "" ++ " / auto defaults 0 1\n")))
  ∧ (cfgUuid.getD "" = "" →
      (resolveUuidAndFstab cfgUuid tune2fsRes blkidOut blkidRes).trace = [UCmd.blkid]
      ∧ (blkidRes = none → isValidUuid (rstrip blkidOut) = true →
          (resolveUuidAndFstab cfgUuid tune2fsRes blkidOut blkidRes).fstab
            = some ("/dev/disk/by-uuid/" ++ rstrip blkidOut ++ " / auto defaults 0 1\n")
          ∧ (resolveUuidAndFstab cfgUuid tune2fsRes blkidOut blkidRes).uuid
            = some (rstrip blkidOut))
      ∧ (blkidRes = none → isValidUuid (rstrip blkidOut) = false →
          (resolveUuidAndFstab cfgUuid tune2fsRes blkidOut blkidRes).err
            = some UErr.invalidUuid
          ∧ (resolveUuidAndFstab cfgUuid tune2fsRes blkidOut blkidRes).fstab
            = none)) := by
  constructor
  · intro h
    cases tune2fsRes <;>
      refine ⟨by simp [resolveUuidAndFstab, h], by simp [resolveUuidAndFstab, h], ?_⟩
    · intro _
      simp [resolveUuidAndFstab, h, fstabLine]
    · intro hc
      exact absurd hc (by simp)
  · intro h
    refine ⟨?_, ?_, ?_⟩
    · cases hb : blkidRes
      · by_cases hv : isValidUuid (rstrip blkidOut) <;>
          simp [resolveUuidAndFstab, h, hb, hv]
      · simp [resolveUuidAndFstab, h, hb]
    · intro hb hv
      subst hb
      constructor <;> simp [resolveUuidAndFstab, h, hv, fstabLine]
    · intro hb hv
      subst hb
      constructor <;> simp [resolveUuidAndFstab, h, hv]

/-- Witness for `uuid_fstab_roundtrip`: the configured UUID lands verbatim
in the fstab line. -/
theorem uuid_fstab_roundtrip_witness :
    (resolveUuidAndFstab (some "11111111-2222-3333-4444-555555555555") none "" none).fstab
      = some "/dev/disk/by-uuid/11111111-2222-3333-4444-555555555555 / auto defaults 0 1\n" := by
  rw [((uuid_fstab_roundtrip (some "11111111-2222-3333-4444-555555555555")
      none "" none).1 (by decide)).2.2 rfl]
  decide

/-
Bootloader installation: `_install_bootloader__grub2` (engine.py 558-605).
`realTarget` stands for `os.path.realpath(self._abs_target_path)` (symlinks
followed); `installRes` is the exit status of the install command.
-/

inductive BEv where
  | writeDeviceMap (path content : String)
  | execInstall (argv : List String)
  | removeDeviceMap (path : String)
  deriving DecidableEq, Repr

structure BResult where
  trace : List BEv
  err : Option Nat
  deriving DecidableEq, Repr

/-- engine.py 562. -/
def useChroot (approach : Approach) : Bool :=
  approach == .chrootGrub2Device || approach == .chrootGrub2Drive

/-- engine.py 563. -/
def useDeviceMap (approach : Approach) : Bool :=
  approach == .chrootGrub2Drive || approach == .hostGrub2Drive

/-- `BootstrapEngine._install_bootloader__grub2` (engine.py 558-605). -/
def installBootloaderGrub2 (approach : Approach) (force : Bool)
    (mountpoint targetPath realTarget chrootCmd hostCmd : String)
    (installRes : Option Nat) : BResult :=
  let deviceMapPath := mountpoint ++ "/boot/grub/device.map"
  let writes : List BEv :=
    if useDeviceMap approach then
      [BEv.writeDeviceMap deviceMapPath ("(hd0)\t" ++ realTarget ++ "\n")]
    else []
  let cmd : List String :=
    (if useChroot approach then ["chroot", mountpoint, chrootCmd]
     else [hostCmd, "--boot-directory", mountpoint ++ "/boot"])
    ++ (if force then ["--force"] else [])
    ++ [if useDeviceMap approach then "(hd0)" else targetPath]
  match installRes with
  | some c => { trace := writes ++ [BEv.execInstall cmd], err := some c }
  | none =>
      { trace := writes ++ [BEv.execInstall cmd]
          ++ (if useDeviceMap approach then [BEv.removeDeviceMap deviceMapPath]
              else []),
        err := none }

/-- C8: in a drive-mode approach the device map
`<mountpoint>/boot/grub/device.map` is written with exactly the single line
`(hd0)<TAB><fully resolved target path>` and newline before the install
command runs, and it is removed afterwards exactly when the install command
succeeds (it stays in place when the install fails). -/
theorem device_map_lifecycle (approach : Approach) (force : Bool)
    (mountpoint targetPath realTarget chrootCmd hostCmd : String)
    (installRes : Option Nat)
    (hdrive : useDeviceMap approach = true) :
    (installBootloaderGrub2 approach force mountpoint targetPath realTarget
        chrootCmd hostCmd installRes).trace
      = [BEv.writeDeviceMap (mountpoint ++ "/boot/grub/device.map")
           ("(hd0)\t" ++ realTarget ++ "\n"),
         BEv.execInstall
           ((if useChroot approach then ["chroot", mountpoint, chrootCmd]
             else [hostCmd, "--boot-directory", mountpoint ++ "/boot"])
            ++ (if force then ["--force"] else []) ++ ["(hd0)"])]
        ++ (if installRes = none then
              [BEv.removeDeviceMap (mountpoint ++ "/boot/grub/device.map")]
            else []) := by
  cases installRes <;> simp [installBootloaderGrub2, hdrive]

/-- Witness for `device_map_lifecycle`: host-grub2-drive with a failing
install leaves the device map in place. -/
theorem device_map_lifecycle_witness :
    (installBootloaderGrub2 .hostGrub2Drive false "/mnt/tmpX" "/dev/disk-link"
        "/dev/sda" "grub-install" "grub2-install" (some 1)).trace
      = [BEv.writeDeviceMap "/mnt/tmpX/boot/grub/device.map" "(hd0)\t/dev/sda\n",
         BEv.execInstall ["grub2-install", "--boot-directory", "/mnt/tmpX/boot",
           "(hd0)"]] := by
  rw [device_map_lifecycle .hostGrub2Drive false "/mnt/tmpX" "/dev/disk-link"
      "/dev/sda" "grub-install" "grub2-install" (some 1) rfl]
  decide

/-
grub2-install detection: `detect_grub2_install` (engine.py 151-182) with
`_protect_against_grub_legacy` (144-149).  `findRes name` models
`_find_command(name)` (134-142): `none` = found on PATH, `some e` = OSError
with errno `e` (127 = not found).  `versionOut` is the stdout of
`grub-install --version`.
-/

/-- Whether `pat` occurs as a contiguous substring. -/
def listHasSub (pat : List Char) : List Char → Bool
  | [] => leadsWith pat []
  | c :: cs => leadsWith pat (c :: cs) || listHasSub pat cs

/-- Python `pat in s`. -/
def strContains (s pat : String) : Bool :=
  listHasSub pat.data s.data

inductive DErr where
  | osError (code : Nat)
  | grubLegacy
  deriving DecidableEq, Repr

structure DetectResult where
  command : Option String
  probed : Bool
  err : Option DErr
  deriving DecidableEq, Repr

/-- `BootstrapEngine.detect_grub2_install` (engine.py 151-182). -/
def detectGrub2Install (cfgCmd : Option String) (approach : Approach)
    (findRes : String → Option Nat) (versionOut : String) : DetectResult :=
  if cfgCmd.getD "" ≠ "" then
    { command := cfgCmd, probed := false, err := none }
  else if ¬ (approach = .hostGrub2Device ∨ approach = .hostGrub2Drive) then
    { command := cfgCmd, probed := false, err := none }
  else
    match findRes "grub2-install" with
    | none => { command := some "grub2-install", probed := false, err := none }
    | some e =>
      if e ≠ 127 then
        { command := some "grub2-install", probed := false,
          err := some (DErr.osError e) }
      else
        match findRes "grub-install" with
        | some e2 =>
          if e2 ≠ 127 then
            { command := some "grub-install", probed := false,
              err := some (DErr.osError e2) }
          else
            { command := some "grub-install", probed := false, err := none }
        | none =>
          if strContains versionOut "GRUB GRUB 0." then
            { command := some "grub-install", probed := true,
              err := some DErr.grubLegacy }
          else
            { command := some "grub-install", probed := true, err := none }

/-- C9: detection is skipped when a command is configured or the approach is
not a host-grub2 one; otherwise `grub2-install` is tried first and wins
without probing; on not-found (errno 127) the fallback `grub-install` is
tried; if that too is missing the fallback name stays recorded and
detection returns cleanly (the later commands check reports the miss); if
`grub-install` is found it is probed via `--version` and detection refuses
with a GRUB-legacy error exactly when the output contains `GRUB GRUB 0.`. -/
theorem grub2_detection (cfgCmd : Option String) (approach : Approach)
    (findRes : String → Option Nat) (versionOut : String) :
    (cfgCmd.getD "" ≠ "" →
      detectGrub2Install cfgCmd approach findRes versionOut
        = { command := cfgCmd, probed := false, err := none })
  ∧ (cfgCmd.getD "" = "" → ¬ (approach = .hostGrub2Device ∨ approach = .hostGrub2Drive) →
      detectGrub2Install cfgCmd approach findRes versionOut
        = { command := cfgCmd, probed := false, err := none })
  ∧ (cfgCmd.getD "" = "" → (approach = .hostGrub2Device ∨ approach = .hostGrub2Drive) →
      (findRes "grub2-install" = none →
        detectGrub2Install cfgCmd approach findRes versionOut
          = { command := some "grub2-install", probed := false, err := none })
      ∧ (findRes "grub2-install" = some 127 → findRes "grub-install" = some 127 →
          detectGrub2Install cfgCmd approach findRes versionOut
            = { command := some "grub-install", probed := false, err := none })
      ∧ (findRes "grub2-install" = some 127 → findRes "grub-install" = none →
          (detectGrub2Install cfgCmd approach findRes versionOut).probed = true
          ∧ (detectGrub2Install cfgCmd approach findRes versionOut).command
              = some "grub-install"
          ∧ (strContains versionOut "GRUB GRUB 0." = true →
              (detectGrub2Install cfgCmd approach findRes versionOut).err
                = some DErr.grubLegacy)
          ∧ (strContains versionOut "GRUB GRUB 0." = false →
              (detectGrub2Install cfgCmd approach findRes versionOut).err
                = none))) := by
  refine ⟨?_, ?_, ?_⟩
  · intro h
    simp [detectGrub2Install, h]
  · intro h hap
    simp [detectGrub2Install, h, hap]
  · intro h hap
    refine ⟨?_, ?_, ?_⟩
    · intro hf
      simp [detectGrub2Install, h, hap, hf]
    · intro hf hg
      simp [detectGrub2Install, h, hap, hf, hg]
    · intro hf hg
      by_cases hm : strContains versionOut "GRUB GRUB 0." <;>
        refine ⟨?_, ?_, ?_, ?_⟩ <;>
          simp [detectGrub2Install, h, hap, hf, hg, hm]

/-- Witness for `grub2_detection`: with `grub2-install` missing and a
`grub-install` answering `GRUB GRUB 0.93`, detection aborts with the
GRUB-legacy error. -/
theorem grub2_detection_witness :
    (detectGrub2Install none .hostGrub2Device
        (fun n => if n = "grub2-install" then some 127 else none)
        "grub-install (GNU GRUB 0.93)\nGRUB GRUB 0.93\n").err
      = some DErr.grubLegacy :=
  (((grub2_detection none .hostGrub2Device
      (fun n => if n = "grub2-install" then some 127 else none)
      "grub-install (GNU GRUB 0.93)\nGRUB GRUB 0.93\n").2.2
    rfl (Or.inl rfl)).2.2 (by decide) (by decide)).2.2.1 (by decide)

/-
Script environment: `make_environment` (engine.py 511-525) and the
per-script `env.copy()` of `_run_scripts_from` (509).  Environments are
modeled extensionally as functions from variable names to optional values;
`os.environ.copy()` starts from the host environment, and every later
`pop`/`update` acts on the copy, so the host environment comes back
unchanged.
-/

/-- Python `env.pop(k, None)` on a dict, extensionally. -/
def envPop (e : String → Option String) (k : String) : String → Option String :=
  fun q => if q = k then none else e q

/-- Python `env[k] = v` on a dict, extensionally. -/
def envSet (e : String → Option String) (k v : String) : String → Option String :=
  fun q => if q = k then some v else e q

/-- `BootstrapEngine.make_environment` (engine.py 511-525), threading the
host `os.environ` through: returns (host environment afterwards, the fresh
environment dict). -/
def makeEnvironment (osEnv : String → Option String)
    (hostname mountpoint : String) (tellMountpoint : Bool) :
    (String → Option String) × (String → Option String) :=
  let env0 := osEnv
  let env1 := envPop (envPop env0 "LANG") "LANGUAGE"
  let env2 := envSet (envSet (envSet env1 "HOSTNAME" hostname)
    "IB_HOSTNAME" hostname) "LC_ALL" "C"
  let env3 := if tellMountpoint
    then envSet (envSet env2 "IB_ROOT" mountpoint) "MNTPOINT" mountpoint
    else env2
  (osEnv, env3)

/-- The environments handed to the successive script invocations of one
phase: `check_call(cmd, env=env.copy())` (engine.py 509) gives every script
its own copy of the same dict. -/
def scriptEnvironments (listing : List String) (exitOf : String → Nat)
    (env : String → Option String) :
    List (String × (String → Option String)) :=
  (runScriptsFrom listing exitOf).1.map (fun s => (s, env))

/-- C10: `make_environment` leaves the host environment untouched and
returns a dict equal to the host environment minus LANG and LANGUAGE, plus
HOSTNAME, IB_HOSTNAME, LC_ALL = C and — only when the mountpoint is exposed
— IB_ROOT and MNTPOINT; each script invocation of a phase receives exactly
that same environment, so no invocation changes the environment any later
script sees. -/
theorem make_environment_pure (osEnv : String → Option String)
    (hostname mountpoint : String) (tell : Bool) (listing : List String)
    (exitOf : String → Nat) :
    (makeEnvironment osEnv hostname mountpoint tell).1 = osEnv
  ∧ (∀ k, (makeEnvironment osEnv hostname mountpoint tell).2 k =
      if k = "MNTPOINT" then (if tell then some mountpoint else osEnv k)
      else if k = "IB_ROOT" then (if tell then some mountpoint else osEnv k)
      else if k = "LC_ALL" then some "C"
      else if k = "IB_HOSTNAME" then some hostname
      else if k = "HOSTNAME" then some hostname
      else if k = "LANG" ∨ k = "LANGUAGE" then none
      else osEnv k)
  ∧ ((scriptEnvironments listing exitOf
        (makeEnvironment osEnv hostname mountpoint tell).2).map Prod.snd
      = List.replicate (runScriptsFrom listing exitOf).1.length
          (makeEnvironment osEnv hostname mountpoint tell).2) := by
  refine ⟨rfl, ?_, ?_⟩
  · intro k
    simp only [makeEnvironment]
    cases tell <;> split_ifs <;> simp_all [envSet, envPop] <;>
      try (rintro h1 h2; tauto)
  · simp [scriptEnvironments, List.map_map, Function.comp_def, List.map_const']

end ImageBootstrap
